import Mathlib

/-!
Verification of the Epixable academy LMS backend (Python sources under
`src/`): a shallow embedding in Lean 4 of the request router, the auth
gate, the dynamic update builder, the pagination envelopes, the
connection open/close discipline of the data-access layer, and the
email dispatch worker, together with theorems settling the stated
properties of each component.

External collaborators (PostgreSQL, the JSON library, PyJWT, SES, the
DynamoDB deserializer) are modelled at their interface: query results,
decoded images and transport outcomes enter the embedded functions as
explicit arguments or oracles, while every decision the Python code
itself makes is translated directly from the source.
-/

namespace Epixable

/-! ## JSON values

Model of the Python-side JSON data (`dict` / `list` / scalars) used for
request bodies and response payloads.  Numbers are restricted to the
integer subset, which is all the handlers under `src/` ever inspect. -/

inductive Json where
  | null
  | bool (b : Bool)
  | num (n : Int)
  | str (s : String)
  | arr (xs : List Json)
  | obj (kvs : List (String × Json))

/-- Python truthiness of a JSON value (`bool(x)`). -/
def jsonTruthy : Json → Bool
  | .null => false
  | .bool b => b
  | .num n => n != 0
  | .str s => s != ""
  | .arr xs => !xs.isEmpty
  | .obj kvs => !kvs.isEmpty

/-- `dict.get(k)` on a parsed JSON object. -/
def jget (kvs : List (String × Json)) (k : String) : Option Json :=
  (kvs.find? (fun p => p.1 == k)).map (·.2)

/-! ## A model of `json.loads`

Executable model of the external JSON parser used at
`src/lambda_function.py:2029`.  It accepts the JSON fragment actually
exercised by the system (objects, arrays, strings, integers, booleans,
null) and fails — as `json.loads` raises `JSONDecodeError` — on any
input outside the grammar. -/

def skipWs : List Char → List Char
  | [] => []
  | c :: cs => if c = ' ' ∨ c = '\t' ∨ c = '\n' ∨ c = '\r' then skipWs cs else c :: cs

def escChar (c : Char) : Char :=
  if c = 'n' then '\n' else if c = 't' then '\t' else if c = 'r' then '\r' else c

def parseStringBody : List Char → Option (List Char × List Char)
  | [] => none
  | '"' :: rest => some ([], rest)
  | '\\' :: c :: rest => (parseStringBody rest).map (fun p => (escChar c :: p.1, p.2))
  | c :: rest => (parseStringBody rest).map (fun p => (c :: p.1, p.2))

def takeDigits : List Char → List Char × List Char
  | [] => ([], [])
  | c :: cs =>
    if c.isDigit then
      let p := takeDigits cs
      (c :: p.1, p.2)
    else ([], c :: cs)

def digitsVal (ds : List Char) : Nat :=
  ds.foldl (fun acc c => acc * 10 + (c.toNat - '0'.toNat)) 0

def parseNum : List Char → Option (Json × List Char)
  | '-' :: rest =>
    match takeDigits rest with
    | ([], _) => none
    | (ds, r) => some (.num (-(digitsVal ds : Int)), r)
  | cs =>
    match takeDigits cs with
    | ([], _) => none
    | (ds, r) => some (.num (digitsVal ds : Int), r)

mutual

def parseVal : Nat → List Char → Option (Json × List Char)
  | 0, _ => none
  | Nat.succ f, cs =>
    match skipWs cs with
    | [] => none
    | c :: rest =>
      if c = 'n' then
        match rest with
        | 'u' :: 'l' :: 'l' :: r => some (.null, r)
        | _ => none
      else if c = 't' then
        match rest with
        | 'r' :: 'u' :: 'e' :: r => some (.bool true, r)
        | _ => none
      else if c = 'f' then
        match rest with
        | 'a' :: 'l' :: 's' :: 'e' :: r => some (.bool false, r)
        | _ => none
      else if c = '"' then
        (parseStringBody rest).map (fun p => (.str (String.mk p.1), p.2))
      else if c = '[' then
        match skipWs rest with
        | ']' :: r => some (.arr [], r)
        | cs2 => (parseArrTail f cs2).map (fun p => (.arr p.1, p.2))
      else if c = '{' then
        match skipWs rest with
        | '}' :: r => some (.obj [], r)
        | cs2 => (parseObjTail f cs2).map (fun p => (.obj p.1, p.2))
      else if c = '-' ∨ c.isDigit then
        parseNum (c :: rest)
      else none

def parseArrTail : Nat → List Char → Option (List Json × List Char)
  | 0, _ => none
  | Nat.succ f, cs => do
    let (v, r1) ← parseVal f cs
    match skipWs r1 with
    | ',' :: r2 => do
      let (vs, r3) ← parseArrTail f r2
      some (v :: vs, r3)
    | ']' :: r2 => some ([v], r2)
    | _ => none

def parseObjTail : Nat → List Char → Option (List (String × Json) × List Char)
  | 0, _ => none
  | Nat.succ f, cs =>
    match skipWs cs with
    | '"' :: r0 => do
      let (k, r1) ← parseStringBody r0
      match skipWs r1 with
      | ':' :: r2 => do
        let (v, r3) ← parseVal f r2
        match skipWs r3 with
        | ',' :: r4 => do
          let (kvs, r5) ← parseObjTail f r4
          some ((String.mk k, v) :: kvs, r5)
        | '}' :: r4 => some ([(String.mk k, v)], r4)
        | _ => none
      | _ => none
    | _ => none

end

/-- The external `json.loads`: `none` models a raised `JSONDecodeError`. -/
def json_loads (s : String) : Option Json :=
  match parseVal (s.length * 2 + 8) s.data with
  | some (v, rest) => if skipWs rest = [] then some v else none
  | none => none

/-! ## Pagination envelopes of the list operations

Each `db_list_*` function runs two external queries — the `LIMIT %s
OFFSET %s` item query (its rows arrive here as `items`) and the
`COUNT(*)` query with the same filter (its result arrives as `total`)
— and then assembles the returned dictionary.  The envelope fields
below are translated from each function's `return { ... }` literal. -/

/-- A row as produced by `rows_to_dicts`: a string-keyed record. -/
abbrev Row : Type := List (String × Json)

structure ListResult (α : Type) where
  items : List α
  total : Int
  limit : Int
  offset : Int
  hasNext : Bool
  next_offset : Option Int

/-- Embeds `db_list_users` (src/db.py lines 121-161). -/
def db_list_users (users : List Row) (total limit offset : Int) : ListResult Row :=
  { items := users, total := total, limit := limit, offset := offset
  , hasNext := decide (offset + limit < total)
  , next_offset := if offset + limit < total then some (offset + limit) else none }

/-- Embeds `db_list_students` (src/db_students.py lines 157-214). -/
def db_list_students (students : List Row) (total limit offset : Int) : ListResult Row :=
  { items := students, total := total, limit := limit, offset := offset
  , hasNext := decide (offset + limit < total)
  , next_offset := if offset + limit < total then some (offset + limit) else none }

/-- Embeds `db_list_courses` (src/db_course.py lines 172-254). -/
def db_list_courses (courses : List Row) (total limit offset : Int) : ListResult Row :=
  { items := courses, total := total, limit := limit, offset := offset
  , hasNext := decide (offset + limit < total)
  , next_offset := if offset + limit < total then some (offset + limit) else none }

/-- Embeds `db_list_batches` (src/db_course.py lines 619-666); the
`course_id` filter only affects which rows the external queries return. -/
def db_list_batches (course_id : String) (batches : List Row) (total limit offset : Int) :
    ListResult Row :=
  { items := batches, total := total, limit := limit, offset := offset
  , hasNext := decide (offset + limit < total)
  , next_offset := if offset + limit < total then some (offset + limit) else none }

/-- Embeds `db_list_all_batches` (src/db_batch.py lines 255-327). -/
def db_list_all_batches (batches : List Row) (total limit offset : Int) : ListResult Row :=
  { items := batches, total := total, limit := limit, offset := offset
  , hasNext := decide (offset + limit < total)
  , next_offset := if offset + limit < total then some (offset + limit) else none }

/-- Embeds `db_list_batch_students` (src/db_batch.py lines 329-381). -/
def db_list_batch_students (batch_id : String) (students : List Row)
    (total limit offset : Int) : ListResult Row :=
  { items := students, total := total, limit := limit, offset := offset
  , hasNext := decide (offset + limit < total)
  , next_offset := if offset + limit < total then some (offset + limit) else none }

/-- Embeds `db_list_enrollments` (src/db_course.py lines 713-791). -/
def db_list_enrollments (enrollments : List Row) (total limit offset : Int) : ListResult Row :=
  { items := enrollments, total := total, limit := limit, offset := offset
  , hasNext := decide (offset + limit < total)
  , next_offset := if offset + limit < total then some (offset + limit) else none }

/-- The pagination contract a returned envelope must satisfy:
`hasNext` tracks `offset + limit < total`, and `next_offset` carries
`offset + limit` exactly when `hasNext` holds and is absent otherwise. -/
def PaginationContract {α : Type} (r : ListResult α) : Prop :=
  (r.hasNext = true ↔ r.offset + r.limit < r.total) ∧
  (r.hasNext = true → r.next_offset = some (r.offset + r.limit)) ∧
  (r.hasNext = false → r.next_offset = none)

theorem contract_of_build {α : Type} (items : List α) (t l o : Int) :
    PaginationContract
      (⟨items, t, l, o, decide (o + l < t),
        if o + l < t then some (o + l) else none⟩ : ListResult α) := by
  refine ⟨by simp [ListResult.hasNext], ?_, ?_⟩
  · intro h
    have hlt : o + l < t := of_decide_eq_true h
    simp [ListResult.next_offset, hlt]
  · intro h
    have hlt : ¬ (o + l < t) := of_decide_eq_false h
    simp [ListResult.next_offset, hlt]

/-- C1: for every list operation (users, students, courses, batches,
enrollments) and every non-negative limit and offset, the returned
pagination envelope satisfies `hasNext = (offset + limit < total)`, and
the next-offset field carries `offset + limit` exactly when `hasNext`
is true and is absent otherwise. -/
theorem pagination_envelope_all_list_ops (rows : List Row) (total limit offset : Int)
    (cid bid : String) (hl : 0 ≤ limit) (ho : 0 ≤ offset) :
    PaginationContract (db_list_users rows total limit offset) ∧
    PaginationContract (db_list_students rows total limit offset) ∧
    PaginationContract (db_list_courses rows total limit offset) ∧
    PaginationContract (db_list_batches cid rows total limit offset) ∧
    PaginationContract (db_list_all_batches rows total limit offset) ∧
    PaginationContract (db_list_batch_students bid rows total limit offset) ∧
    PaginationContract (db_list_enrollments rows total limit offset) :=
  ⟨contract_of_build rows total limit offset,
   contract_of_build rows total limit offset,
   contract_of_build rows total limit offset,
   contract_of_build rows total limit offset,
   contract_of_build rows total limit offset,
   contract_of_build rows total limit offset,
   contract_of_build rows total limit offset⟩

/-- Witness for C1 at `limit = 25`, `offset = 0`, `total = 30`. -/
theorem pagination_envelope_all_list_ops_witness :
    PaginationContract (db_list_users [] 30 25 0) ∧
    PaginationContract (db_list_students [] 30 25 0) ∧
    PaginationContract (db_list_courses [] 30 25 0) ∧
    PaginationContract (db_list_batches "c1" [] 30 25 0) ∧
    PaginationContract (db_list_all_batches [] 30 25 0) ∧
    PaginationContract (db_list_batch_students "b1" [] 30 25 0) ∧
    PaginationContract (db_list_enrollments [] 30 25 0) :=
  pagination_envelope_all_list_ops [] 30 25 0 "c1" "b1" (by decide) (by decide)

/-! ## Router

Embedding of the route tables and the dispatch logic of
`lambda_handler` (src/lambda_function.py lines 1868-2076).  Handlers
are represented by name; every route in the source carries
`"roles": None`. -/

/-- The handler functions referenced by the route tables, by their
source names (`get_course_by_id` and `get_course_by_id_handler` are
two distinct functions in the source). -/
inductive Handler where
  | signin_handler | create_user_handler | get_users_handler | get_students_handler
  | create_student_handler | create_course_handler | get_courses_handler
  | create_lesson_handler | create_enrollment_handler | get_enrollments_handler
  | get_all_batches_handler | create_batch_handler
  | update_user_handler | delete_user_handler
  | get_student_handler | update_student_handler | delete_student_handler
  | get_lesson_handler | update_lesson_handler | delete_lesson_handler
  | get_course_by_id | get_course_by_id_handler | get_module_with_lessons_handler
  | get_batches_handler
  | update_module_handler | update_course_handler | delete_module_handler
  | delete_course_handler
  | generate_thumbnail_upload_url_handler | generate_resource_upload_url_handler
  | generate_video_upload_url_handler | create_module_handler
  | get_student_enrollments_handler | get_student_course_handler
  | delete_enrollment_handler
  | get_batch_students_handler | update_batch_handler | delete_batch_handler
deriving DecidableEq, Repr

/-- One component of a route pattern: every pattern in `PARAM_ROUTES`
is an anchored `/`-separated sequence of literal segments and named
single-segment captures `(?P<name>[^/]+)`. -/
inductive Seg where
  | lit (s : String)
  | cap (name : String)
deriving DecidableEq, Repr

structure ParamRoute where
  pattern : List Seg
  handler : Handler
  roles : Option (List String)
deriving DecidableEq, Repr

/-- Python `str.split(sep)` for a one-character separator. -/
def splitChar (sep : Char) : List Char → List (List Char)
  | [] => [[]]
  | c :: cs =>
    if c = sep then [] :: splitChar sep cs
    else
      match splitChar sep cs with
      | [] => [[c]]
      | x :: xs => (c :: x) :: xs

/-- `path.split("/")` of the dispatch code. -/
def pathSegments (s : String) : List String :=
  (splitChar '/' s.data).map String.mk

/-- Segment-wise matching of a pattern against the `/`-split path:
a literal matches exactly itself and `[^/]+` matches any nonempty
segment, capturing it under the group name (the regexes in the source
are anchored with `^`/`$`, so the whole path must be consumed). -/
def segsMatch : List Seg → List String → Option (List (String × String))
  | [], [] => some []
  | .lit s :: ps, t :: ts => if t = s then segsMatch ps ts else none
  | .cap n :: ps, t :: ts =>
    if t ≠ "" then (segsMatch ps ts).map (fun captured => (n, t) :: captured) else none
  | _, _ => none

/-- `pattern.match(path)` + `match.groupdict()` of the source regexes. -/
def patMatch (pat : List Seg) (path : String) : Option (List (String × String)) :=
  segsMatch pat (pathSegments path)

/-- Python `path.strip("/")`. -/
def stripSlashes (s : String) : String :=
  String.mk (((s.data.dropWhile (· = '/')).reverse.dropWhile (· = '/')).reverse)

/-- `FIXED_ROUTES` (src/lambda_function.py lines 1868-1881). -/
def FIXED_ROUTES : List ((String × String) × (Handler × Option (List String))) :=
  [ (("POST", "login"), (.signin_handler, none))
  , (("POST", "users"), (.create_user_handler, none))
  , (("GET", "users"), (.get_users_handler, none))
  , (("GET", "students"), (.get_students_handler, none))
  , (("POST", "students"), (.create_student_handler, none))
  , (("POST", "courses"), (.create_course_handler, none))
  , (("GET", "courses"), (.get_courses_handler, none))
  , (("POST", "lessons"), (.create_lesson_handler, none))
  , (("POST", "enrollments"), (.create_enrollment_handler, none))
  , (("GET", "enrollments"), (.get_enrollments_handler, none))
  , (("GET", "batches"), (.get_all_batches_handler, none))
  , (("POST", "batches"), (.create_batch_handler, none)) ]

/-- `PARAM_ROUTES` (src/lambda_function.py lines 1884-2018), keyed by
base path segment, then by HTTP method, in registration order. -/
def PARAM_ROUTES : List (String × List (String × List ParamRoute)) :=
  [ ("users",
      [ ("PUT", [⟨[.lit "users", .cap "user_id"], .update_user_handler, none⟩])
      , ("DELETE", [⟨[.lit "users", .cap "user_id"], .delete_user_handler, none⟩]) ])
  , ("students",
      [ ("GET", [⟨[.lit "students", .cap "student_id"], .get_student_handler, none⟩])
      , ("PUT", [⟨[.lit "students", .cap "student_id"], .update_student_handler, none⟩])
      , ("DELETE", [⟨[.lit "students", .cap "student_id"], .delete_student_handler, none⟩]) ])
  , ("lessons",
      [ ("GET", [⟨[.lit "lessons", .cap "lesson_id"], .get_lesson_handler, none⟩])
      , ("PUT", [⟨[.lit "lessons", .cap "lesson_id"], .update_lesson_handler, none⟩])
      , ("DELETE", [⟨[.lit "lessons", .cap "lesson_id"], .delete_lesson_handler, none⟩]) ])
  , ("courses",
      [ ("GET",
          [ ⟨[.lit "courses", .cap "course_id"], .get_course_by_id, none⟩
          , ⟨[.lit "courses", .cap "course_id", .lit "details"], .get_course_by_id_handler, none⟩
          , ⟨[.lit "courses", .cap "course_id", .lit "modules", .cap "module_id"],
              .get_module_with_lessons_handler, none⟩
          , ⟨[.lit "courses", .cap "course_id", .lit "batches"], .get_batches_handler, none⟩ ])
      , ("PUT",
          [ ⟨[.lit "courses", .cap "course_id", .lit "modules", .cap "module_id"],
              .update_module_handler, none⟩
          , ⟨[.lit "courses", .cap "course_id"], .update_course_handler, none⟩ ])
      , ("DELETE",
          [ ⟨[.lit "courses", .cap "course_id", .lit "modules", .cap "module_id"],
              .delete_module_handler, none⟩
          , ⟨[.lit "courses", .cap "course_id"], .delete_course_handler, none⟩ ])
      , ("POST",
          [ ⟨[.lit "courses", .lit "thumbnail", .lit "upload-url"],
              .generate_thumbnail_upload_url_handler, none⟩
          , ⟨[.lit "courses", .lit "resource", .lit "upload-url"],
              .generate_resource_upload_url_handler, none⟩
          , ⟨[.lit "courses", .lit "video", .lit "upload-url"],
              .generate_video_upload_url_handler, none⟩
          , ⟨[.lit "courses", .cap "course_id", .lit "modules"], .create_module_handler, none⟩ ]) ])
  , ("enrollments",
      [ ("GET",
          [ ⟨[.lit "enrollments", .lit "students"], .get_student_enrollments_handler, none⟩
          , ⟨[.lit "enrollments", .cap "course_id", .lit "student"],
              .get_student_course_handler, none⟩ ])
      , ("DELETE",
          [⟨[.lit "enrollments", .cap "enrollment_id"], .delete_enrollment_handler, none⟩]) ])
  , ("batches",
      [ ("GET", [⟨[.lit "batches", .cap "batch_id", .lit "students"],
                    .get_batch_students_handler, none⟩])
      , ("PUT", [⟨[.lit "batches", .cap "batch_id"], .update_batch_handler, none⟩])
      , ("DELETE", [⟨[.lit "batches", .cap "batch_id"], .delete_batch_handler, none⟩]) ]) ]

inductive RouteOutcome where
  | fixed (h : Handler) (roles : Option (List String))
  | param (h : Handler) (roles : Option (List String)) (pathParams : List (String × String))
  | notFound
deriving DecidableEq, Repr

/-- `PARAM_ROUTES.get(base_path, {}).get(method, [])` of the dispatch. -/
def methodRoutes (method path : String) : List ParamRoute :=
  (List.lookup method ((List.lookup ((pathSegments path).headD "") PARAM_ROUTES).getD [])).getD []

/-- The `for param_route in method_routes` loop of `lambda_handler`:
first pattern whose match succeeds wins. -/
def findParamRoute :
    List ParamRoute → String → Option (Handler × Option (List String) × List (String × String))
  | [], _ => none
  | r :: rs, path =>
    match patMatch r.pattern path with
    | some ps => some (r.handler, r.roles, ps)
    | none => findParamRoute rs path

/-- The route-selection logic of `lambda_handler`
(src/lambda_function.py lines 2024-2076): normalize the path, try the
fixed table, then the parameterized table for the first segment and
method, else 404. -/
def routeRequest (method rawPath : String) : RouteOutcome :=
  let path := stripSlashes rawPath
  match List.lookup (method, path) FIXED_ROUTES with
  | some (h, ro) => .fixed h ro
  | none =>
    match findParamRoute (methodRoutes method path) path with
    | some (h, ro, ps) => .param h ro ps
    | none => .notFound

/-- Route `i` is the first entry of `rs` whose pattern matches `path`,
and it yields handler `h`, roles `ro` and captured parameters `ps`. -/
def FirstMatchAt (rs : List ParamRoute) (path : String) (i : Nat) (h : Handler)
    (ro : Option (List String)) (ps : List (String × String)) : Prop :=
  (∃ r, rs.get? i = some r ∧ patMatch r.pattern path = some ps ∧
    r.handler = h ∧ r.roles = ro) ∧
  ∀ j r, j < i → rs.get? j = some r → patMatch r.pattern path = none

theorem findParamRoute_eq_none_iff (rs : List ParamRoute) (path : String) :
    findParamRoute rs path = none ↔ ∀ r ∈ rs, patMatch r.pattern path = none := by
  induction rs with
  | nil => simp [findParamRoute]
  | cons r rs ih =>
    cases hp : patMatch r.pattern path with
    | some ps => simp [findParamRoute, hp]
    | none => simp [findParamRoute, hp, ih]

theorem findParamRoute_eq_some_iff (rs : List ParamRoute) (path : String) (h : Handler)
    (ro : Option (List String)) (ps : List (String × String)) :
    findParamRoute rs path = some (h, ro, ps) ↔ ∃ i, FirstMatchAt rs path i h ro ps := by
  induction rs with
  | nil =>
    simp only [findParamRoute, FirstMatchAt]
    constructor
    · intro he
      exact absurd he (by simp)
    · rintro ⟨i, ⟨⟨r, hg, -⟩, -⟩⟩
      simp at hg
  | cons r rs ih =>
    cases hp : patMatch r.pattern path with
    | some ps0 =>
      simp only [findParamRoute, hp]
      constructor
      · intro he
        obtain ⟨hh, hro, hps⟩ : r.handler = h ∧ r.roles = ro ∧ ps0 = ps := by
          have := Option.some.inj he
          exact ⟨congrArg Prod.fst this, congrArg Prod.fst (congrArg Prod.snd this),
            congrArg Prod.snd (congrArg Prod.snd this)⟩
        refine ⟨0, ⟨⟨r, rfl, ?_, hh, hro⟩, ?_⟩⟩
        · rw [hp, hps]
        · intro j r' hj
          omega
      · rintro ⟨i, ⟨⟨r', hg, hm, hh, hro⟩, hmin⟩⟩
        cases i with
        | zero =>
          have hr : r = r' := by simpa using hg
          subst hr
          rw [hp] at hm
          have hps : ps0 = ps := Option.some.inj hm
          rw [hh, hro, hps]
        | succ j =>
          have : patMatch r.pattern path = none :=
            hmin 0 r (Nat.succ_pos j) (by simp)
          rw [hp] at this
          cases this
    | none =>
      simp only [findParamRoute, hp]
      constructor
      · intro he
        obtain ⟨i, ⟨wit, hmin⟩⟩ := ih.mp he
        refine ⟨i + 1, ⟨?_, ?_⟩⟩
        · obtain ⟨r', hg, hm, hh, hro⟩ := wit
          exact ⟨r', by simpa using hg, hm, hh, hro⟩
        · intro j r' hj hg
          cases j with
          | zero =>
            have hr : r = r' := by simpa using hg
            subst hr
            exact hp
          | succ k =>
            exact hmin k r' (by omega) (by simpa using hg)
      · rintro ⟨i, ⟨⟨r', hg, hm, hh, hro⟩, hmin⟩⟩
        cases i with
        | zero =>
          have hr : r = r' := by simpa using hg
          subst hr
          rw [hp] at hm
          cases hm
        | succ j =>
          refine ih.mpr ⟨j, ⟨⟨r', by simpa using hg, hm, hh, hro⟩, ?_⟩⟩
          intro k rk hk hgk
          exact hmin (k + 1) rk (by omega) (by simpa using hgk)

/-- C2: for every (method, path) request, an exact literal entry in the
fixed-route table wins and dispatches its handler, never a
parameterized one; otherwise, among the parameterized routes registered
under the path's first segment and the method, the first pattern in
registration order that matches the full path is selected and its named
groups become the path parameters; if none matches the outcome is the
404 branch. -/
theorem router_dispatch_contract (method rawPath : String) :
    (∀ h ro, List.lookup (method, stripSlashes rawPath) FIXED_ROUTES = some (h, ro) →
      routeRequest method rawPath = .fixed h ro) ∧
    (List.lookup (method, stripSlashes rawPath) FIXED_ROUTES = none →
      (∀ h ro ps,
        routeRequest method rawPath = .param h ro ps ↔
          ∃ i, FirstMatchAt (methodRoutes method (stripSlashes rawPath))
            (stripSlashes rawPath) i h ro ps) ∧
      (routeRequest method rawPath = .notFound ↔
        ∀ r ∈ methodRoutes method (stripSlashes rawPath),
          patMatch r.pattern (stripSlashes rawPath) = none)) := by
  constructor
  · intro h ro hfix
    simp only [routeRequest, hfix]
  · intro hnone
    constructor
    · intro h ro ps
      simp only [routeRequest, hnone]
      cases hf : findParamRoute (methodRoutes method (stripSlashes rawPath))
          (stripSlashes rawPath) with
      | some t =>
        obtain ⟨h0, ro0, ps0⟩ := t
        simp only [RouteOutcome.param.injEq]
        constructor
        · rintro ⟨rfl, rfl, rfl⟩
          exact (findParamRoute_eq_some_iff _ _ _ _ _).mp hf
        · intro hex
          have := (findParamRoute_eq_some_iff _ _ h ro ps).mpr hex
          rw [hf] at this
          have := Option.some.inj this
          exact ⟨congrArg Prod.fst this, congrArg Prod.fst (congrArg Prod.snd this),
            congrArg Prod.snd (congrArg Prod.snd this)⟩
      | none =>
        simp only []
        constructor
        · intro hcontra
          cases hcontra
        · intro hex
          have := (findParamRoute_eq_some_iff _ _ h ro ps).mpr hex
          rw [hf] at this
          cases this
    · simp only [routeRequest, hnone]
      cases hf : findParamRoute (methodRoutes method (stripSlashes rawPath))
          (stripSlashes rawPath) with
      | some t =>
        obtain ⟨h0, ro0, ps0⟩ := t
        simp only []
        constructor
        · intro hcontra
          cases hcontra
        · intro hall
          have := (findParamRoute_eq_none_iff _ _).mpr hall
          rw [hf] at this
          cases this
      | none =>
        simp only [true_iff]
        exact (findParamRoute_eq_none_iff _ _).mp hf

/-- Witness for C2: the fixed route `GET /users` dispatches its literal
handler, and `GET courses/abc/details` — where the overlapping pattern
`courses/(?P<course_id>[^/]+)` is registered first but does not match —
selects the first matching pattern in registration order with its
captured group. -/
theorem router_dispatch_contract_witness :
    routeRequest "GET" "/users" = .fixed .get_users_handler none ∧
    (∃ i, FirstMatchAt (methodRoutes "GET" "courses/abc/details") "courses/abc/details" i
      .get_course_by_id_handler none [("course_id", "abc")]) := by
  constructor
  · exact (router_dispatch_contract "GET" "/users").1 _ _ rfl
  · exact (((router_dispatch_contract "GET" "courses/abc/details").2 rfl).1 _ _ _).mp rfl

/-! ## Auth gate

Embedding of `authorize` (src/lambda_function.py lines 151-165) and
the role gate inside `lambda_handler` (lines 2043-2048 and 2063-2068).
The PyJWT encode/decode pair is modelled concretely: an encoded token
records the signing key, the expiry claim and the payload claims, and
`jwt.decode` succeeds exactly when the recorded key equals the
configured secret and the expiry lies in the future — any other token
raises, which the `except` in `authorize` turns into "Invalid token". -/

structure PyResponse where
  statusCode : Int
  body : Json

/-- `response(body, status)` (src/lambda_function.py lines 83-96);
headers are constant and omitted. -/
def mkResponse (body : Json) (status : Int) : PyResponse :=
  ⟨status, body⟩

/-- The error shape `{"error": msg}`. -/
def errBody (msg : String) : Json :=
  .obj [("error", .str msg)]

structure TokenClaims where
  sub : String
  email : String
  role : String
deriving DecidableEq, Repr

/-- `SECRET_KEY = os.environ.get("SECRET_KEY", "CHANGE_ME")` — the
process-wide signing secret (modelled at its default). -/
def SECRET_KEY : String := "CHANGE_ME"

/-- Model of the external `jwt.encode(payload, key, algorithm)`: the
encoded string determines the signing key, the expiry and the claims. -/
def encodeToken (key expStr : String) (c : TokenClaims) : String :=
  key ++ "|" ++ expStr ++ "|" ++ c.sub ++ "|" ++ c.email ++ "|" ++ c.role

/-- Python `int(s)` on a decimal literal. -/
def pyParseInt (s : String) : Option Int :=
  match s.data with
  | '-' :: rest =>
    match takeDigits rest with
    | ([], _) => none
    | (ds, []) => some (-(digitsVal ds : Int))
    | (_, _ :: _) => none
  | cs =>
    match takeDigits cs with
    | ([], _) => none
    | (ds, []) => some (digitsVal ds : Int)
    | (_, _ :: _) => none

/-- The five fields recorded in an encoded token:
(key, expiry, sub, email, role). -/
def tokenFields (token : String) : Option (String × String × String × String × String) :=
  match (splitChar '|' token.data).map String.mk with
  | [key, expStr, sub, email, role] => some (key, expStr, sub, email, role)
  | _ => none

/-- Model of `jwt.decode(token, SECRET_KEY, algorithms=[JWT_ALGO])`
(src/lambda_function.py lines 131-132): succeeds iff the token's
signing key equals `SECRET_KEY` and its expiry is after `now`;
`none` models the raised `InvalidSignatureError` / `ExpiredSignatureError`
/ `DecodeError`. -/
def decodeFields (now : Int) (key expStr sub email role : String) : Option TokenClaims :=
  match pyParseInt expStr with
  | some exp => if key = SECRET_KEY ∧ now < exp then some ⟨sub, email, role⟩ else none
  | none => none

def decode_token (now : Int) (token : String) : Option TokenClaims :=
  match tokenFields token with
  | some (key, expStr, sub, email, role) => decodeFields now key expStr sub email role
  | none => none

/-- The signing key recorded in an encoded token (token-model accessor). -/
def tokenSignKey (token : String) : Option String :=
  (tokenFields token).map (·.1)

/-- The expiry recorded in an encoded token (token-model accessor). -/
def tokenExpiry (token : String) : Option Int :=
  (tokenFields token).bind (fun t => pyParseInt t.2.1)

/-- Python `a or b` on two `dict.get` results (strings). -/
def pyOrStr (a b : Option String) : Option String :=
  match a with
  | some s => if s = "" then b else some s
  | none => b

/-- Python `s.startswith(pre)`. -/
def pyStartsWith (s pre : String) : Bool :=
  pre.data.isPrefixOf s.data

/-- Python `s.replace(pat, "")`: drop every non-overlapping occurrence
of `pat`, scanning left to right (fuel-driven for structural
recursion; the fuel `s.length` can never run out since each step
consumes at least one character). -/
def replaceDropFuel (pat : List Char) : Nat → List Char → List Char
  | 0, cs => cs
  | _ + 1, [] => []
  | f + 1, c :: rest =>
    if pat ≠ [] ∧ pat.isPrefixOf (c :: rest) = true then
      replaceDropFuel pat f ((c :: rest).drop pat.length)
    else c :: replaceDropFuel pat f rest

def pyReplaceEmpty (s pat : String) : String :=
  String.mk (replaceDropFuel pat.data s.data.length s.data)

/-- Embeds `authorize(headers, allowed_roles)`
(src/lambda_function.py lines 151-165). -/
def authorize (now : Int) (headers : List (String × String))
    (allowed_roles : Option (List String)) : Option TokenClaims × Option String :=
  match pyOrStr (List.lookup "Authorization" headers) (List.lookup "authorization" headers) with
  | none => (none, some "Unauthorized")
  | some auth =>
    if pyStartsWith auth "Bearer " = false then (none, some "Unauthorized")
    else
      match decode_token now (pyReplaceEmpty auth "Bearer ") with
      | none => (none, some "Invalid token")
      | some user =>
        match allowed_roles with
        | none => (some user, none)
        | some roles =>
          if roles ≠ [] ∧ user.role ∉ roles then (none, some "Forbidden")
          else (some user, none)

/-- Python truthiness of the `roles` field of a route entry. -/
def rolesTruthy : Option (List String) → Bool
  | none => false
  | some l => !l.isEmpty

/-- The role gate of `lambda_handler` around a matched route
(src/lambda_function.py lines 2043-2048, 2063-2068): `user = None`
unless the route declares truthy roles, in which case `authorize` runs
and any error is returned as `response({"error": err}, 401)`. -/
def routeAuth (roles : Option (List String)) (now : Int)
    (headers : List (String × String)) : Except PyResponse (Option TokenClaims) :=
  if rolesTruthy roles then
    match authorize now headers roles with
    | (_, some err) => .error (mkResponse (errBody err) 401)
    | (u, none) => .ok u
  else .ok none

/-- C3 (amended): for a role-gated route, a missing or non-Bearer
Authorization header yields status 401 with "Unauthorized"; a token is
decoded successfully only when signed with the configured secret and
unexpired, and any other token yields status 401 with "Invalid token";
a validly signed, unexpired token whose role is outside the route's
allowed roles yields status 401 — not 403 — with error "Forbidden". -/
theorem auth_gate_behavior (roles : Option (List String)) (now : Int)
    (headers : List (String × String)) (hroles : rolesTruthy roles = true) :
    (pyOrStr (List.lookup "Authorization" headers) (List.lookup "authorization" headers) =
        none →
      routeAuth roles now headers = .error (mkResponse (errBody "Unauthorized") 401)) ∧
    (∀ auth,
      pyOrStr (List.lookup "Authorization" headers) (List.lookup "authorization" headers) =
        some auth →
      pyStartsWith auth "Bearer " = false →
      routeAuth roles now headers = .error (mkResponse (errBody "Unauthorized") 401)) ∧
    (∀ auth,
      pyOrStr (List.lookup "Authorization" headers) (List.lookup "authorization" headers) =
        some auth →
      pyStartsWith auth "Bearer " = true →
      decode_token now (pyReplaceEmpty auth "Bearer ") = none →
      routeAuth roles now headers = .error (mkResponse (errBody "Invalid token") 401)) ∧
    (∀ token c, decode_token now token = some c →
      tokenSignKey token = some SECRET_KEY ∧ ∃ e, tokenExpiry token = some e ∧ now < e) ∧
    (∀ auth c rs, roles = some rs →
      pyOrStr (List.lookup "Authorization" headers) (List.lookup "authorization" headers) =
        some auth →
      pyStartsWith auth "Bearer " = true →
      decode_token now (pyReplaceEmpty auth "Bearer ") = some c →
      c.role ∉ rs →
      routeAuth roles now headers = .error (mkResponse (errBody "Forbidden") 401)) := by
  refine ⟨?_, ?_, ?_, ?_, ?_⟩
  · intro hmiss
    simp only [routeAuth, hroles, if_true, authorize, hmiss]
  · intro auth hsome hbad
    simp only [routeAuth, hroles, if_true, authorize, hsome, hbad]
  · intro auth hsome hgood hdec
    simp only [routeAuth, hroles, if_true, authorize, hsome, hgood, decide_eq_true_eq,
      Bool.true_eq_false, if_false, hdec]
  · intro token c hdec
    unfold decode_token at hdec
    unfold tokenSignKey tokenExpiry
    cases hf : tokenFields token with
    | none => rw [hf] at hdec; cases hdec
    | some t =>
      obtain ⟨k, expStr, sub, email, role⟩ := t
      rw [hf] at hdec
      have hdec2 : decodeFields now k expStr sub email role = some c := hdec
      unfold decodeFields at hdec2
      cases hexp : pyParseInt expStr with
      | none => rw [hexp] at hdec2; cases hdec2
      | some e =>
        rw [hexp] at hdec2
        by_cases hcond : k = SECRET_KEY ∧ now < e
        · refine ⟨?_, ⟨e, ?_, hcond.2⟩⟩
          · show Option.map _ (some (k, expStr, sub, email, role)) = some SECRET_KEY
            simp [hcond.1]
          · show Option.bind (some (k, expStr, sub, email, role)) _ = some e
            simp [hexp]
        · have hdec3 :
              (if k = SECRET_KEY ∧ now < e then
                some (⟨sub, email, role⟩ : TokenClaims) else none) = some c := hdec2
          rw [if_neg hcond] at hdec3
          cases hdec3
  · intro auth c rs hrs hsome hgood hdec hrole
    subst hrs
    have hne : rs ≠ [] := by
      intro h
      rw [h] at hroles
      simp [rolesTruthy] at hroles
    simp only [routeAuth, hroles, if_true, authorize, hsome, hgood, Bool.true_eq_false,
      if_false, hdec]
    rw [if_pos ⟨hne, hrole⟩]

/-- Witness for C3 (amended): a role-gated route with no Authorization
header is a 401 "Unauthorized", and a concrete token signed with the
configured secret decodes with the recorded key and a future expiry. -/
theorem auth_gate_behavior_witness :
    routeAuth (some ["admin"]) 0 [] = .error (mkResponse (errBody "Unauthorized") 401) ∧
    (tokenSignKey (encodeToken SECRET_KEY "99" ⟨"US1", "a@b.c", "admin"⟩) =
        some SECRET_KEY ∧
      ∃ e, tokenExpiry (encodeToken SECRET_KEY "99" ⟨"US1", "a@b.c", "admin"⟩) = some e ∧
        (0 : Int) < e) := by
  have h := auth_gate_behavior (some ["admin"]) 0 [] rfl
  exact ⟨h.1 rfl, h.2.2.2.1 _ ⟨"US1", "a@b.c", "admin"⟩ rfl⟩

/-- Counterexample for C3 as stated: a validly signed, unexpired token
whose role "student" is outside the allowed roles `["admin"]` produces
status 401 (with error body "Forbidden"), not status 403. -/
theorem auth_gate_forbidden_is_401_counterexample :
    routeAuth (some ["admin"]) 0
        [("Authorization",
          "Bearer " ++ encodeToken SECRET_KEY "9999999999" ⟨"US1", "a@b.c", "student"⟩)] =
      .error (mkResponse (errBody "Forbidden") 401) ∧ (401 : Int) ≠ 403 :=
  ⟨rfl, by decide⟩

/-! ## Dynamic update builder

Embedding of the statement-building part of `db_update_user`
(src/db.py lines 168-218) and `db_update_student`
(src/db_students.py lines 216-260): the `SET` fragments, the fixed
trailing `updated_at = %s` assignment, the primary-key `WHERE`
predicate, and the positional parameter list in execution order.
`None` models the `if not updates: return None` early exit, under
which no statement is issued. -/

structure UpdateStmt where
  table : String
  setParts : List String
  trailingSet : String
  whereCol : String
  params : List Json

/-- Statement construction of `db_update_user` (src/db.py lines
183-210): `set_parts` from the update keys, then `params` gets the
values followed by `_now_iso()` and `user_id`. -/
def db_update_user_stmt (user_id : String) (updates : List (String × Json)) (now : String) :
    Option UpdateStmt :=
  if updates.isEmpty then none
  else some
    { table := "users"
    , setParts := updates.map (fun kv => kv.1 ++ " = %s")
    , trailingSet := "updated_at"
    , whereCol := "user_id"
    , params := updates.map (fun kv => kv.2) ++ [Json.str now, Json.str user_id] }

/-- Statement construction of `db_update_student`
(src/db_students.py lines 224-254). -/
def db_update_student_stmt (student_id : String) (updates : List (String × Json))
    (now : String) : Option UpdateStmt :=
  if updates.isEmpty then none
  else some
    { table := "students"
    , setParts := updates.map (fun kv => kv.1 ++ " = %s")
    , trailingSet := "updated_at"
    , whereCol := "student_id"
    , params := updates.map (fun kv => kv.2) ++ [Json.str now, Json.str student_id] }

/-- The user-entity allow-list enforced by `update_user_handler`
(src/lambda_function.py lines 280-304). -/
def userAllowList : List String := ["email", "full_name", "role", "status"]

/-- The student-entity allow-list: the database-side values of the
`field_mapping` in `update_student_handler`
(src/lambda_function.py lines 496-511). -/
def studentAllowList : List String :=
  ["first_name", "last_name", "date_of_birth", "gender", "profile_photo_url",
   "email", "mobile_number", "emergency_contact", "residential_address",
   "current_status", "highest_qualification", "id_proof_type", "id_number",
   "lead_source"]

/-- Recover the assigned column from a `"col = %s"` SET fragment. -/
def stripAssign (s : String) : String :=
  String.mk (s.data.take (s.data.length - 5))

theorem stripAssign_append (k : String) : stripAssign (k ++ " = %s") = k := by
  unfold stripAssign
  show String.mk ((k.data ++ (" = %s" : String).data).take
    ((k.data ++ (" = %s" : String).data).length - 5)) = k
  have h5 : (" = %s" : String).data.length = 5 := rfl
  rw [List.length_append, h5, Nat.add_sub_cancel, List.take_left]

theorem setParts_columns (updates : List (String × Json)) :
    (updates.map (fun kv => kv.1 ++ " = %s")).map stripAssign = updates.map Prod.fst := by
  rw [List.map_map]
  exact List.map_congr_left (fun kv _ => stripAssign_append kv.1)

/-- C4: for an update whose field map is restricted to the entity's
allow-list (and nonempty, else no statement is issued), the generated
statement's SET clause assigns exactly the supplied fields plus the
`updated_at` timestamp, is scoped by the primary-key equality
predicate, and the timestamp value and the primary key are the final
positional parameters, in that order — for both the user and the
student builder. -/
theorem update_builder_exact_fields (uid sid now : String)
    (updatesU updatesS : List (String × Json))
    (hU : updatesU ≠ []) (hUallow : ∀ k ∈ updatesU.map Prod.fst, k ∈ userAllowList)
    (hS : updatesS ≠ []) (hSallow : ∀ k ∈ updatesS.map Prod.fst, k ∈ studentAllowList) :
    (∃ st, db_update_user_stmt uid updatesU now = some st ∧
      st.table = "users" ∧
      st.setParts.map stripAssign = updatesU.map Prod.fst ∧
      st.trailingSet = "updated_at" ∧
      st.whereCol = "user_id" ∧
      st.params = updatesU.map (fun kv => kv.2) ++ [Json.str now, Json.str uid]) ∧
    (∃ st, db_update_student_stmt sid updatesS now = some st ∧
      st.table = "students" ∧
      st.setParts.map stripAssign = updatesS.map Prod.fst ∧
      st.trailingSet = "updated_at" ∧
      st.whereCol = "student_id" ∧
      st.params = updatesS.map (fun kv => kv.2) ++ [Json.str now, Json.str sid]) := by
  constructor
  · have hsome : db_update_user_stmt uid updatesU now = some
        ⟨"users", updatesU.map (fun kv => kv.1 ++ " = %s"), "updated_at", "user_id",
          updatesU.map (fun kv => kv.2) ++ [Json.str now, Json.str uid]⟩ := by
      rw [db_update_user_stmt, if_neg (by simpa using hU)]
    exact ⟨_, hsome, rfl, setParts_columns updatesU, rfl, rfl, rfl⟩
  · have hsome : db_update_student_stmt sid updatesS now = some
        ⟨"students", updatesS.map (fun kv => kv.1 ++ " = %s"), "updated_at", "student_id",
          updatesS.map (fun kv => kv.2) ++ [Json.str now, Json.str sid]⟩ := by
      rw [db_update_student_stmt, if_neg (by simpa using hS)]
    exact ⟨_, hsome, rfl, setParts_columns updatesS, rfl, rfl, rfl⟩

/-- Witness for C4 at a one-field update for each entity. -/
theorem update_builder_exact_fields_witness :
    (∃ st, db_update_user_stmt "US1" [("email", .str "x@y.z")] "T0" = some st ∧
      st.table = "users" ∧
      st.setParts.map stripAssign = [("email", Json.str "x@y.z")].map Prod.fst ∧
      st.trailingSet = "updated_at" ∧
      st.whereCol = "user_id" ∧
      st.params = [("email", Json.str "x@y.z")].map (fun kv => kv.2) ++
        [Json.str "T0", Json.str "US1"]) ∧
    (∃ st, db_update_student_stmt "STU1" [("first_name", .str "Ana")] "T0" = some st ∧
      st.table = "students" ∧
      st.setParts.map stripAssign = [("first_name", Json.str "Ana")].map Prod.fst ∧
      st.trailingSet = "updated_at" ∧
      st.whereCol = "student_id" ∧
      st.params = [("first_name", Json.str "Ana")].map (fun kv => kv.2) ++
        [Json.str "T0", Json.str "STU1"]) :=
  update_builder_exact_fields "US1" "STU1" "T0"
    [("email", .str "x@y.z")] [("first_name", .str "Ana")]
    (by simp) (by intro k hk; simp at hk; simp [hk, userAllowList])
    (by simp) (by intro k hk; simp at hk; simp [hk, studentAllowList])

/-! ## Update handler: "nothing to update" vs "not found"

Embedding of `update_user_handler` (src/lambda_function.py lines
272-326).  The database call is an oracle argument; the boolean in the
result records whether the handler reached `db_update_user` at all. -/

def isPySpace (c : Char) : Bool :=
  c = ' ' ∨ c = '\t' ∨ c = '\n' ∨ c = '\r'

/-- Python `s.strip()`. -/
def pyStrip (s : String) : String :=
  String.mk (((s.data.dropWhile isPySpace).reverse.dropWhile isPySpace).reverse)

/-- Python `s.lower()`. -/
def pyLower (s : String) : String :=
  String.mk (s.data.map Char.toLower)

/-- The outcome of one validation step inside the handler's `try`:
either the accumulated updates, an early `return response(...)`, or a
raised exception (caught by the broad `except` as a 500). -/
inductive HStep (α : Type) where
  | ok (a : α)
  | early (r : PyResponse)
  | exn

def hbind {α β : Type} (x : HStep α) (f : α → HStep β) : HStep β :=
  match x with
  | .ok a => f a
  | .early r => .early r
  | .exn => .exn

/-- The `if "email" in body` block of `update_user_handler`:
`body["email"].lower().strip()`, empty → 400, else collect.  A
non-string value raises `AttributeError` (no `.lower`). -/
def stepEmail (body : List (String × Json)) (acc : List (String × Json)) :
    HStep (List (String × Json)) :=
  match jget body "email" with
  | none => .ok acc
  | some (.str s) =>
    let email := pyStrip (pyLower s)
    if email = "" then .early (mkResponse (errBody "Email cannot be empty") 400)
    else .ok (acc ++ [("email", .str email)])
  | some _ => .exn

/-- The `if "full_name" in body` block. -/
def stepFullName (body : List (String × Json)) (acc : List (String × Json)) :
    HStep (List (String × Json)) :=
  match jget body "full_name" with
  | none => .ok acc
  | some (.str s) =>
    let full_name := pyStrip s
    if full_name = "" then .early (mkResponse (errBody "Full name cannot be empty") 400)
    else .ok (acc ++ [("full_name", .str full_name)])
  | some _ => .exn

/-- The `if "role" in body` block. -/
def stepRole (body : List (String × Json)) (acc : List (String × Json)) :
    HStep (List (String × Json)) :=
  match jget body "role" with
  | none => .ok acc
  | some (.str s) =>
    let role := pyStrip (pyLower s)
    if role = "admin" ∨ role = "teacher" ∨ role = "student" then
      .ok (acc ++ [("role", .str role)])
    else .early (mkResponse (errBody "Invalid role") 400)
  | some _ => .exn

/-- The `if "status" in body` block. -/
def stepStatus (body : List (String × Json)) (acc : List (String × Json)) :
    HStep (List (String × Json)) :=
  match jget body "status" with
  | none => .ok acc
  | some (.str s) =>
    let status := pyStrip s
    if status = "Active" ∨ status = "Inactive" then
      .ok (acc ++ [("status", .str status)])
    else .early (mkResponse (errBody "Invalid status") 400)
  | some _ => .exn

/-- The `updates = {}` accumulation of `update_user_handler`
(src/lambda_function.py lines 280-304), in source order. -/
def collectUserUpdates (body : List (String × Json)) : HStep (List (String × Json)) :=
  hbind (stepEmail body []) (fun a1 =>
    hbind (stepFullName body a1) (fun a2 =>
      hbind (stepRole body a2) (fun a3 =>
        stepStatus body a3)))

/-- Embeds `update_user_handler` (src/lambda_function.py lines
272-326).  `db_update` is the external `db_update_user` call; the
returned boolean records whether it was invoked.  The success body
echoes the row's fields. -/
def update_user_handler (body : List (String × Json)) (path_params : List (String × String))
    (db_update : String → List (String × Json) → Option (List (String × Json))) :
    PyResponse × Bool :=
  match List.lookup "user_id" path_params with
  | none => (mkResponse (errBody "User ID is required") 400, false)
  | some uid =>
    if uid = "" then (mkResponse (errBody "User ID is required") 400, false)
    else
      match collectUserUpdates body with
      | .early r => (r, false)
      | .exn => (mkResponse (errBody "Internal server error") 500, false)
      | .ok updates =>
        if updates.isEmpty then
          (mkResponse (errBody "No valid fields to update") 400, false)
        else
          match db_update uid updates with
          | none => (mkResponse (errBody "User not found") 404, true)
          | some row =>
            (mkResponse (.obj ([("message", .str "User updated successfully")] ++
              ["user_id", "email", "full_name", "role", "status"].map
                (fun k => (k, (jget row k).getD .null)))) 200, true)

/-- C5: an update request whose body contains zero allow-listed fields
yields the 400 "No valid fields to update" response without invoking
the database, the builder itself issues no statement for an empty
field map, and this outcome is distinguishable from the 404 "User not
found" produced when allow-listed fields are supplied but no row
matches the primary key. -/
theorem update_nothing_vs_not_found (body body2 : List (String × Json))
    (pp : List (String × String)) (uid : String)
    (db : String → List (String × Json) → Option (List (String × Json)))
    (now : String)
    (hpp : List.lookup "user_id" pp = some uid) (huid : uid ≠ "")
    (he : jget body "email" = none) (hf : jget body "full_name" = none)
    (hr : jget body "role" = none) (hs : jget body "status" = none)
    (updates2 : List (String × Json))
    (hcol : collectUserUpdates body2 = .ok updates2) (hne : updates2 ≠ [])
    (hdb : db uid updates2 = none) :
    update_user_handler body pp db =
      (mkResponse (errBody "No valid fields to update") 400, false) ∧
    db_update_user_stmt uid [] now = none ∧
    update_user_handler body2 pp db = (mkResponse (errBody "User not found") 404, true) ∧
    (400 : Int) ≠ 404 := by
  refine ⟨?_, rfl, ?_, by decide⟩
  · have hcoll : collectUserUpdates body = .ok [] := by
      simp [collectUserUpdates, stepEmail, stepFullName, stepRole, stepStatus, hbind,
        he, hf, hr, hs]
    simp [update_user_handler, hpp, huid, hcoll]
  · simp [update_user_handler, hpp, huid, hcol, hne, hdb]

/-- Witness for C5: a body with only an unknown key versus a body
supplying a valid role, against a database with no matching row. -/
theorem update_nothing_vs_not_found_witness :
    update_user_handler [("foo", .num 1)] [("user_id", "US1")] (fun _ _ => none) =
      (mkResponse (errBody "No valid fields to update") 400, false) ∧
    db_update_user_stmt "US1" [] "T0" = none ∧
    update_user_handler [("role", .str "admin")] [("user_id", "US1")] (fun _ _ => none) =
      (mkResponse (errBody "User not found") 404, true) ∧
    (400 : Int) ≠ 404 :=
  update_nothing_vs_not_found [("foo", .num 1)] [("role", .str "admin")]
    [("user_id", "US1")] "US1" (fun _ _ => none) "T0"
    rfl (by decide) rfl rfl rfl rfl
    [("role", .str "admin")] rfl (by simp) rfl

/-! ## Connection open/close discipline

Event-trace embedding of the cited data-access functions.  Every
`db_*` function under `src/` follows `conn = pg_connect(); cur =
conn.cursor(); try: ... finally: cur.close(); conn.close()`; the
statements inside the `try` are external calls that may raise, so each
is an oracle `Except` value.  The trace records acquisition, executed
statements and release; a raised exception propagates as `.error` but
still passes through the `finally`. -/

inductive PyErr where
  | db
  | value (msg : String)
deriving DecidableEq, Repr

inductive DbEvent where
  | openConn
  | openCursor
  | execSql (tag : String)
  | commit
  | closeCursor
  | closeConn
deriving DecidableEq, Repr, BEq

/-- `conn = pg_connect(); cur = conn.cursor(); try: body finally:
cur.close(); conn.close()` — the close events follow the body's events
on the success and the exception path alike. -/
def withConnCursor {α : Type} (body : Except PyErr α × List DbEvent) :
    Except PyErr α × List DbEvent :=
  (body.1,
    [DbEvent.openConn, DbEvent.openCursor] ++ body.2 ++
      [DbEvent.closeCursor, DbEvent.closeConn])

/-- Outcomes of the four external calls inside the `try` of
`db_list_users` (src/db.py lines 121-161). -/
structure ListUsersOracle where
  execSelect : Except PyErr Unit
  fetchAll : Except PyErr (List Row)
  execCount : Except PyErr Unit
  fetchTotal : Except PyErr Int

/-- Trace semantics of `db_list_users` (src/db.py lines 121-161). -/
def db_list_users_run (o : ListUsersOracle) (limit offset : Int) :
    Except PyErr (ListResult Row) × List DbEvent :=
  withConnCursor (
    match o.execSelect with
    | .error e => (.error e, [.execSql "SELECT users LIMIT OFFSET"])
    | .ok _ =>
      match o.fetchAll with
      | .error e => (.error e, [.execSql "SELECT users LIMIT OFFSET"])
      | .ok rows =>
        match o.execCount with
        | .error e =>
          (.error e, [.execSql "SELECT users LIMIT OFFSET", .execSql "SELECT COUNT users"])
        | .ok _ =>
          match o.fetchTotal with
          | .error e =>
            (.error e, [.execSql "SELECT users LIMIT OFFSET", .execSql "SELECT COUNT users"])
          | .ok total =>
            (.ok (db_list_users rows total limit offset),
              [.execSql "SELECT users LIMIT OFFSET", .execSql "SELECT COUNT users"]))

/-- Outcomes of the external calls inside the `try` of
`db_update_student` (src/db_students.py lines 216-260). -/
structure UpdateStudentOracle where
  execUpdate : Except PyErr Unit
  fetchRow : Except PyErr (Option Row)
  commitRes : Except PyErr Unit

/-- Trace semantics of `db_update_student` (src/db_students.py lines
216-260): the `if not updates: return None` exit happens before any
connection is opened. -/
def db_update_student_run (o : UpdateStudentOracle) (student_id : String)
    (updates : List (String × Json)) : Except PyErr (Option Row) × List DbEvent :=
  if updates.isEmpty then (.ok none, [])
  else
    withConnCursor (
      match o.execUpdate with
      | .error e => (.error e, [.execSql "UPDATE students"])
      | .ok _ =>
        match o.fetchRow with
        | .error e => (.error e, [.execSql "UPDATE students"])
        | .ok row =>
          match o.commitRes with
          | .error e => (.error e, [.execSql "UPDATE students", .commit])
          | .ok _ => (.ok row, [.execSql "UPDATE students", .commit]))

/-- Outcomes of the external calls inside the `try` of
`db_create_enrollment` (src/db_course.py lines 667-711). -/
structure CreateEnrollmentOracle where
  execCheck : Except PyErr Unit
  fetchDup : Except PyErr (Option Row)
  execInsert : Except PyErr Unit
  fetchNew : Except PyErr Row
  commitRes : Except PyErr Unit

/-- Trace semantics of `db_create_enrollment` (src/db_course.py lines
667-711): a duplicate row raises `ValueError` from inside the `try`,
which still releases the cursor and connection via the `finally`. -/
def db_create_enrollment_run (o : CreateEnrollmentOracle) :
    Except PyErr Row × List DbEvent :=
  withConnCursor (
    match o.execCheck with
    | .error e => (.error e, [.execSql "SELECT enrollment dup check"])
    | .ok _ =>
      match o.fetchDup with
      | .error e => (.error e, [.execSql "SELECT enrollment dup check"])
      | .ok (some _) =>
        (.error (.value "Student is already enrolled in this batch."),
          [.execSql "SELECT enrollment dup check"])
      | .ok none =>
        match o.execInsert with
        | .error e =>
          (.error e, [.execSql "SELECT enrollment dup check", .execSql "INSERT enrollment"])
        | .ok _ =>
          match o.fetchNew with
          | .error e =>
            (.error e, [.execSql "SELECT enrollment dup check", .execSql "INSERT enrollment"])
          | .ok row =>
            match o.commitRes with
            | .error e =>
              (.error e,
                [.execSql "SELECT enrollment dup check", .execSql "INSERT enrollment", .commit])
            | .ok _ =>
              (.ok row,
                [.execSql "SELECT enrollment dup check", .execSql "INSERT enrollment",
                  .commit]))

/-- A trace releases its resources: connection and cursor opens equal
their closes, and — unless nothing was acquired — the final two events
are `cur.close()` then `conn.close()`. -/
def closesOk (tr : List DbEvent) : Bool :=
  (tr.count .openConn == tr.count .closeConn) &&
  (tr.count .openCursor == tr.count .closeCursor) &&
  (tr.isEmpty || (tr.reverse.take 2 == [DbEvent.closeConn, DbEvent.closeCursor]))

/-- C7: the cited data-access operations close their cursor and
connection on every exit path — normal return, empty result, and
raised exception (database error or the duplicate-enrollment
`ValueError`) alike — for every possible outcome of the external
calls. -/
theorem db_connection_discipline (o1 : ListUsersOracle) (o2 : UpdateStudentOracle)
    (o3 : CreateEnrollmentOracle) (limit offset : Int) (sid : String)
    (updates : List (String × Json)) :
    closesOk (db_list_users_run o1 limit offset).2 = true ∧
    closesOk (db_update_student_run o2 sid updates).2 = true ∧
    closesOk (db_create_enrollment_run o3).2 = true := by
  refine ⟨?_, ?_, ?_⟩
  · obtain ⟨e1, e2, e3, e4⟩ := o1
    cases e1 <;> cases e2 <;> cases e3 <;> cases e4 <;> rfl
  · obtain ⟨e1, e2, e3⟩ := o2
    cases updates with
    | nil => rfl
    | cons u us =>
      cases e1 <;> cases e2 <;> cases e3 <;> rfl
  · obtain ⟨e1, e2, e3, e4, e5⟩ := o3
    rcases e1 with e1e | u1 <;>
      rcases e2 with e2e | (_ | d) <;>
      rcases e3 with e3e | u3 <;>
      rcases e4 with e4e | r4 <;>
      rcases e5 with e5e | u5 <;> rfl

/-! ## Request body parsing in `lambda_handler`

`body = json.loads(event.get("body") or "{}")`
(src/lambda_function.py line 2029) runs before any routing and is not
wrapped in a `try`, so a raised `JSONDecodeError` propagates out of
`lambda_handler`. -/

/-- The body string actually handed to `json.loads`: Python `or`
substitutes `"{}"` for an absent or empty (falsy) raw body. -/
def lambdaParseBody (raw : Option String) : Option Json :=
  json_loads (match raw with
    | none => "{}"
    | some s => if s = "" then "{}" else s)

inductive LambdaStep where
  | dispatched (outcome : RouteOutcome) (body : Json)
  | parseError

/-- The pre-routing of `lambda_handler` (src/lambda_function.py lines
2024-2076): parse the body, then route; a parse failure aborts the
invocation before the router runs. -/
def lambda_pre_route (method rawPath : String) (rawBody : Option String) : LambdaStep :=
  match lambdaParseBody rawBody with
  | none => .parseError
  | some b => .dispatched (routeRequest method rawPath) b

/-- C6 (amended): the body used by the handler is the parsed JSON
value of the raw body; it is the empty map when the raw body is absent
or the empty string, and the request then reaches the router; but when
a nonempty raw body is not parseable as JSON the decode error
propagates and the request never reaches the router; a parseable body
is passed through as parsed (even when it is not an object). -/
theorem lambda_body_parse_behavior (method rawPath : String) (rawBody : Option String) :
    (rawBody = none ∨ rawBody = some "" →
      lambda_pre_route method rawPath rawBody =
        .dispatched (routeRequest method rawPath) (.obj [])) ∧
    (∀ s, rawBody = some s → s ≠ "" → json_loads s = none →
      lambda_pre_route method rawPath rawBody = .parseError) ∧
    (∀ s b, rawBody = some s → s ≠ "" → json_loads s = some b →
      lambda_pre_route method rawPath rawBody =
        .dispatched (routeRequest method rawPath) b) := by
  refine ⟨?_, ?_, ?_⟩
  · intro h
    rcases h with rfl | rfl <;> rfl
  · intro s hs hne hparse
    subst hs
    simp [lambda_pre_route, lambdaParseBody, if_neg hne, hparse]
  · intro s b hs hne hparse
    subst hs
    simp [lambda_pre_route, lambdaParseBody, if_neg hne, hparse]

/-- Witness for C6 (amended): an absent body reaches the router with
the empty map; the unparseable body `"not json"` aborts before
routing. -/
theorem lambda_body_parse_behavior_witness :
    lambda_pre_route "GET" "users" none =
      .dispatched (routeRequest "GET" "users") (.obj []) ∧
    lambda_pre_route "GET" "users" (some "not json") = .parseError := by
  constructor
  · exact (lambda_body_parse_behavior "GET" "users" none).1 (Or.inl rfl)
  · exact (lambda_body_parse_behavior "GET" "users" (some "not json")).2.1
      "not json" rfl (by decide) rfl

/-- Counterexample for C6 as stated: with the present but unparseable
raw body `"not json"`, the handler does not proceed with an empty map
— `json.loads` raises and the request never reaches the router — so
the body is not "the empty map whenever the raw body is absent or is
not parseable". -/
theorem unparseable_body_aborts_counterexample :
    lambda_pre_route "POST" "login" (some "not json") = .parseError ∧
    LambdaStep.parseError ≠
      .dispatched (routeRequest "POST" "login") (.obj []) := by
  constructor
  · rfl
  · intro h
    cases h

/-! ## Email dispatch worker

Embedding of the batch loop of the email worker's `lambda_handler`
(src/email-service.py lines 427-576).  The DynamoDB image
deserialization, the base64 payload decode and the legacy field
extraction are external decodings; a record enters the loop carrying
their results (`none` models a failed/empty decode, which the code
maps to the falsy `{}`).  The SES transport is an oracle indexed by
record position.  Template bodies are elided — only the subject line
distinguishes the resolved template, which is all the batch-control
claims depend on. -/

/-- Python `s.upper()`. -/
def pyUpper (s : String) : String :=
  String.mk (s.data.map Char.toUpper)

structure EmailPayload where
  type : String
  /-- the `to` recipient list of the payload (renamed: `to` is reserved) -/
  toAddrs : List String
  cc : List String
  bcc : List String
  reply_to : List String
  data : List (String × String)
deriving DecidableEq, Repr

/-- A record's deserialized `NewImage`: whether a `payload` field is
present, what the base64 decode of it yielded, and what the legacy
field extraction yields as fallback. -/
structure StreamItem where
  hasPayloadField : Bool
  payloadDecode : Option EmailPayload
  extracted : Option EmailPayload
deriving DecidableEq, Repr

structure StreamRecord where
  eventName : String
  newImage : Option StreamItem
deriving DecidableEq, Repr

/-- The `rec_result` dictionary of the worker loop. -/
structure RecResult where
  record_index : Nat
  processed : Bool
  error : Option String
  ses_response : Option String
deriving DecidableEq, Repr

/-- `payload = decode_b64_payload_from_item(item) or {}` when the
`payload` field is present, falling back to
`extract_email_payload_from_record(item)` when the result is falsy
(src/email-service.py lines 479-493). -/
def effectivePayload (item : StreamItem) : Option EmailPayload :=
  match (if item.hasPayloadField then item.payloadDecode else none) with
  | some p => some p
  | none => item.extracted

/-- `data.get(k, d)` on the template data mapping. -/
def dataGetD (data : List (String × String)) (k d : String) : String :=
  (List.lookup k data).getD d

/-- The template dispatch of the worker (src/email-service.py lines
513-529), returning the subject of the resolved template; `none` is
the `else` arm that returns the "Invalid type" response for the whole
invocation. -/
def templateFor (typ : String) (data : List (String × String)) : Option String :=
  if typ = "meeting_invite" then
    some ("Meeting Invitation: " ++ dataGetD data "title" "Meeting")
  else if typ = "meeting_cancel" ∨ typ = "meeting_cancellation" then
    some ("Meeting Cancelled: " ++ dataGetD data "title" "Meeting")
  else if typ = "forgot_password" then
    some "Temporary Password - Epixable"
  else if typ = "password_email" then
    some "Your COFP Account Credentials"
  else none

/-- The outcome of one iteration of the record loop: either a
`rec_result` is appended (with the SES call it attempted, if any) and
the loop continues, or the unknown-type `return` aborts the whole
invocation. -/
inductive LoopStep where
  | done (r : RecResult) (sent : Option (List String × String))
  | invalidTypeReturn
deriving DecidableEq, Repr

/-- One iteration of `for idx, rec in enumerate(records)`
(src/email-service.py lines 448-560). -/
def processEmailRecord (idx : Nat) (rec : StreamRecord)
    (sesResult : Except String String) : LoopStep :=
  if pyUpper rec.eventName ≠ "INSERT" then
    .done ⟨idx, false, some "Skipped (not INSERT)", none⟩ none
  else
    match rec.newImage with
    | none => .done ⟨idx, false, some "No NewImage in INSERT; skipping", none⟩ none
    | some item =>
      let payload := effectivePayload item
      let to_addresses := match payload with | none => [] | some p => p.toAddrs
      if to_addresses.isEmpty then
        .done ⟨idx, false, some "No 'to' recipients found", none⟩ none
      else
        let typ := pyLower (match payload with | none => "" | some p => p.type)
        let data := match payload with | none => [] | some p => p.data
        match templateFor typ data with
        | none => .invalidTypeReturn
        | some subject =>
          match sesResult with
          | .ok resp => .done ⟨idx, true, none, some resp⟩ (some (to_addresses, subject))
          | .error e =>
            .done ⟨idx, false, some ("SES send error: " ++ e), none⟩
              (some (to_addresses, subject))

/-- The three response shapes of the worker: the 400 "No Records"
error, the 200 "Invalid type to send the email" early return, and the
200 batch summary `{records_received, processed_count, results}`. -/
inductive EmailResp where
  | noRecords
  | invalidType
  | batch (records_received : Nat) (processed_count : Nat) (results : List RecResult)
deriving DecidableEq, Repr

def emailLoop (ses : Nat → Except String String) (total : Nat) :
    Nat → List StreamRecord → List RecResult → Nat → EmailResp
  | _, [], acc, processed => .batch total processed acc
  | idx, rec :: rest, acc, processed =>
    match processEmailRecord idx rec (ses idx) with
    | .invalidTypeReturn => .invalidType
    | .done r _ =>
      emailLoop ses total (idx + 1) rest (acc ++ [r])
        (processed + (if r.processed then 1 else 0))

/-- The worker's `lambda_handler` (src/email-service.py lines
427-576) over a batch of already-deserialized records. -/
def email_lambda_handler (records : List StreamRecord)
    (ses : Nat → Except String String) : EmailResp :=
  if records.isEmpty then .noRecords
  else emailLoop ses records.length 0 records [] 0

/-- C8: evaluation at the failing input.  In a batch of three INSERT
records where the middle one carries the unrecognized template type
"welcome", the worker returns the batch-wide "Invalid type" response:
the third record is never processed and the response carries no
per-record result list, even though that record processes successfully
on its own (second conjunct). -/
theorem email_batch_short_circuit_on_unknown_type :
    email_lambda_handler
      [ ⟨"INSERT", some ⟨true,
          some ⟨"meeting_invite", ["a@x.com"], [], [], [], []⟩, none⟩⟩
      , ⟨"INSERT", some ⟨true,
          some ⟨"welcome", ["b@x.com"], [], [], [], []⟩, none⟩⟩
      , ⟨"INSERT", some ⟨true,
          some ⟨"meeting_invite", ["c@x.com"], [], [], [], []⟩, none⟩⟩ ]
      (fun _ => .ok "msg-1") = .invalidType ∧
    processEmailRecord 2
      ⟨"INSERT", some ⟨true, some ⟨"meeting_invite", ["c@x.com"], [], [], [], []⟩, none⟩⟩
      (.ok "msg-1") =
      .done ⟨2, true, none, some "msg-1"⟩ (some (["c@x.com"], "Meeting Invitation: Meeting")) :=
  ⟨rfl, rfl⟩

/-- C9 (amended): a change record whose event type is not "insert"
(case-insensitively) is recorded as skipped — processed false — with
the error field set to the marker string "Skipped (not INSERT)", not
none, and no email is sent for it; an "insert" record whose decoded
payload has recipients and a recognized type proceeds through template
resolution to the transport call. -/
theorem email_non_insert_skip_semantics (idx : Nat) :
    (∀ rec ses, pyUpper rec.eventName ≠ "INSERT" →
      processEmailRecord idx rec ses =
        .done ⟨idx, false, some "Skipped (not INSERT)", none⟩ none) ∧
    (∀ name item p subject m, pyUpper name = "INSERT" →
      effectivePayload item = some p → p.toAddrs ≠ [] →
      templateFor (pyLower p.type) p.data = some subject →
      processEmailRecord idx ⟨name, some item⟩ (.ok m) =
        .done ⟨idx, true, none, some m⟩ (some (p.toAddrs, subject))) := by
  constructor
  · intro rec ses h
    simp [processEmailRecord, h]
  · intro name item p subject m hname hpay hto htpl
    simp [processEmailRecord, hname, hpay, htpl, List.isEmpty_iff, hto]

/-- Witness for C9 (amended): a MODIFY record is skipped with the
marker error and no send; a lowercase "insert" record with a
meeting-invite payload is sent. -/
theorem email_non_insert_skip_semantics_witness :
    processEmailRecord 0 ⟨"MODIFY", none⟩ (.ok "m") =
      .done ⟨0, false, some "Skipped (not INSERT)", none⟩ none ∧
    processEmailRecord 0
      ⟨"insert", some ⟨true, some ⟨"meeting_invite", ["a@x.com"], [], [], [], []⟩, none⟩⟩
      (.ok "mid-1") =
      .done ⟨0, true, none, some "mid-1"⟩
        (some (["a@x.com"], "Meeting Invitation: Meeting")) := by
  constructor
  · exact (email_non_insert_skip_semantics 0).1 ⟨"MODIFY", none⟩ (.ok "m") (by decide)
  · exact (email_non_insert_skip_semantics 0).2 "insert"
      ⟨true, some ⟨"meeting_invite", ["a@x.com"], [], [], [], []⟩, none⟩
      ⟨"meeting_invite", ["a@x.com"], [], [], [], []⟩
      "Meeting Invitation: Meeting" "mid-1" (by decide) rfl (by decide) rfl

/-- Counterexample for C9 as stated: the result entry for a MODIFY
record carries the error string "Skipped (not INSERT)", not an absent
error. -/
theorem email_non_insert_error_marker_counterexample :
    email_lambda_handler [⟨"MODIFY", none⟩] (fun _ => .ok "m") =
      .batch 1 0 [⟨0, false, some "Skipped (not INSERT)", none⟩] ∧
    (some "Skipped (not INSERT)" : Option String) ≠ none := by
  exact ⟨rfl, by simp⟩

/-! ## Student-enrollment read endpoints ignore the principal

Embedding of `get_student_enrollments_handler`
(src/lambda_function.py lines 1681-1727) and
`get_student_course_handler` (lines 1768-1818).  Both hardcode
`student_id = "STU55781"` and never read the `user` argument.  The
database functions they call (`db_list_enrollments_for_student`,
`db_get_student_by_id`, `db_get_student_course_details`) and the S3
presigner are oracle arguments. -/

/-- Python `int(x)` on a JSON value (raises → `none`). -/
def pyInt : Json → Option Int
  | .num n => some n
  | .str s => pyParseInt (pyStrip s)
  | .bool b => some (if b then 1 else 0)
  | _ => none

def optStrJson : Option String → Json
  | none => .null
  | some s => .str s

def optIntJson : Option Int → Json
  | none => .null
  | some n => .num n

/-- Embeds `get_student_enrollments_handler` (src/lambda_function.py
lines 1681-1727): fixed `student_id = "STU55781"`, pagination and
filters from the body, response echoing the envelope.  An `int()` or
`.strip()` failure is the broad `except` 500. -/
def get_student_enrollments_handler (body : List (String × Json))
    (user : Option TokenClaims)
    (db : String → Int → Int → Option String → Option String → ListResult Row) :
    PyResponse :=
  let student_id := "STU55781"
  match pyInt ((jget body "limit").getD (.num 25)) with
  | none => mkResponse (errBody "Internal server error") 500
  | some limit =>
    match pyInt ((jget body "offset").getD (.num 0)) with
    | none => mkResponse (errBody "Internal server error") 500
    | some offset =>
      match (jget body "search").getD (.str "") with
      | .str s =>
        let search := if pyStrip s = "" then none else some (pyStrip s)
        match (jget body "status").getD (.str "") with
        | .str st =>
          let status := if pyStrip st = "" then none else some (pyStrip st)
          let enrollments := db student_id limit offset search status
          mkResponse (.obj
            [ ("student_id", .str student_id)
            , ("enrollments", .arr (enrollments.items.map Json.obj))
            , ("pagination", .obj
                [ ("total", .num enrollments.total)
                , ("limit", .num enrollments.limit)
                , ("offset", .num enrollments.offset)
                , ("hasNext", .bool enrollments.hasNext)
                , ("next_offset", optIntJson enrollments.next_offset) ]) ]) 200
        | _ => mkResponse (errBody "Internal server error") 500
      | _ => mkResponse (errBody "Internal server error") 500

/-- A lesson row of the enrollment details: the two S3-key fields the
handler pops, plus the remaining columns. -/
structure Lesson where
  lesson_video_s3_key : Option String
  module_resource_s3_key : List String
  rest : List (String × Json)

structure CourseModule where
  lessons : List Lesson
  rest : List (String × Json)

structure Enrollment where
  modules : List CourseModule
  rest : List (String × Json)

/-- `generate_presigned_get_url(key)` (src/lambda_function.py lines
687-699): falsy key → None; the S3 client is an oracle, its exception
path also yielding None. -/
def presign (s3 : String → Option String) : Option String → Option String
  | none => none
  | some k => if k = "" then none else s3 k

/-- `convert_lesson_s3` inside `get_student_course_handler`
(src/lambda_function.py lines 1797-1804). -/
def convert_lesson_s3 (s3 : String → Option String) (l : Lesson) : Json :=
  .obj (l.rest ++
    [ ("video_url", optStrJson (presign s3 l.lesson_video_s3_key))
    , ("resources_urls", .arr
        ((l.module_resource_s3_key.filter (fun k => k ≠ "")).map
          (fun k => optStrJson (presign s3 (some k))))) ])

def courseModuleJson (s3 : String → Option String) (m : CourseModule) : Json :=
  .obj (m.rest ++ [("lessons", .arr (m.lessons.map (convert_lesson_s3 s3)))])

def enrollmentJson (s3 : String → Option String) (e : Enrollment) : Json :=
  .obj (e.rest ++ [("modules", .arr (e.modules.map (courseModuleJson s3)))])

/-- Embeds `get_student_course_handler` (src/lambda_function.py lines
1768-1818): fixed `student_id = "STU55781"`, course id from the path
parameters, presigned-URL enrichment of every lesson. -/
def get_student_course_handler (body : List (String × Json)) (user : Option TokenClaims)
    (path_params : List (String × String))
    (dbStudent : String → Option Row)
    (dbDetails : String → Option String → Option Enrollment)
    (s3 : String → Option String) : PyResponse :=
  let student_id := "STU55781"
  let course_id := List.lookup "course_id" path_params
  match dbStudent student_id with
  | none => mkResponse (errBody "Student not found") 404
  | some _ =>
    match dbDetails student_id course_id with
    | none => mkResponse (errBody "Student is not enrolled in any courses") 404
    | some enrollment =>
      mkResponse (.obj
        [ ("enrollments", enrollmentJson s3 enrollment)
        , ("total_enrollments", .num 1) ]) 200

/-- C10: the student-enrollment read endpoints are independent of the
authenticated principal — two requests differing only in their
token/principal get identical responses — and the handlers consult
the database only at the fixed student id "STU55781"; the two GET
routes `enrollments/students` and `enrollments/{course_id}/student`
dispatch to exactly these handlers with no role gate. -/
theorem student_endpoints_ignore_principal (body : List (String × Json))
    (u1 u2 : Option TokenClaims) (pp : List (String × String))
    (db db' : String → Int → Int → Option String → Option String → ListResult Row)
    (dbStudent dbStudent' : String → Option Row)
    (dbDetails dbDetails' : String → Option String → Option Enrollment)
    (s3 : String → Option String) :
    (get_student_enrollments_handler body u1 db =
      get_student_enrollments_handler body u2 db) ∧
    ((∀ l o s st, db "STU55781" l o s st = db' "STU55781" l o s st) →
      get_student_enrollments_handler body u1 db =
        get_student_enrollments_handler body u1 db') ∧
    (get_student_course_handler body u1 pp dbStudent dbDetails s3 =
      get_student_course_handler body u2 pp dbStudent dbDetails s3) ∧
    (dbStudent "STU55781" = dbStudent' "STU55781" →
      (∀ c, dbDetails "STU55781" c = dbDetails' "STU55781" c) →
      get_student_course_handler body u1 pp dbStudent dbDetails s3 =
        get_student_course_handler body u1 pp dbStudent' dbDetails' s3) ∧
    routeRequest "GET" "enrollments/students" =
      .param .get_student_enrollments_handler none [] ∧
    routeRequest "GET" "enrollments/c1/student" =
      .param .get_student_course_handler none [("course_id", "c1")] := by
  refine ⟨rfl, ?_, rfl, ?_, rfl, rfl⟩
  · intro hagree
    unfold get_student_enrollments_handler
    cases pyInt ((jget body "limit").getD (.num 25)) with
    | none => rfl
    | some limit =>
      cases pyInt ((jget body "offset").getD (.num 0)) with
      | none => rfl
      | some offset =>
        cases (jget body "search").getD (.str "") with
        | str s =>
          cases (jget body "status").getD (.str "") with
          | str st => simp only [hagree]
          | null => rfl
          | bool b => rfl
          | num n => rfl
          | arr xs => rfl
          | obj kvs => rfl
        | null => rfl
        | bool b => rfl
        | num n => rfl
        | arr xs => rfl
        | obj kvs => rfl
  · intro hstu hdet
    unfold get_student_course_handler
    simp only [hstu, hdet]

/-- Witness for C10 at a concrete body, principal pair and oracles. -/
theorem student_endpoints_ignore_principal_witness :
    get_student_enrollments_handler [] (some ⟨"US1", "a@b.c", "admin"⟩)
        (fun _ _ _ _ _ => db_list_enrollments [] 0 25 0) =
      get_student_enrollments_handler [] none
        (fun _ _ _ _ _ => db_list_enrollments [] 0 25 0) ∧
    get_student_enrollments_handler [] (some ⟨"US1", "a@b.c", "admin"⟩)
        (fun _ _ _ _ _ => db_list_enrollments [] 0 25 0) =
      get_student_enrollments_handler [] (some ⟨"US1", "a@b.c", "admin"⟩)
        (fun sid _ _ _ _ =>
          if sid = "STU55781" then db_list_enrollments [] 0 25 0
          else db_list_enrollments [] 99 25 0) := by
  have h := student_endpoints_ignore_principal [] (some ⟨"US1", "a@b.c", "admin"⟩) none
    [] (fun _ _ _ _ _ => db_list_enrollments [] 0 25 0)
    (fun sid _ _ _ _ =>
      if sid = "STU55781" then db_list_enrollments [] 0 25 0
      else db_list_enrollments [] 99 25 0)
    (fun _ => none) (fun _ => none) (fun _ _ => none) (fun _ _ => none) (fun _ => none)
  exact ⟨h.1, h.2.1 (fun l o s st => by rw [if_pos rfl])⟩

end Epixable
